import Mathlib

/-!
Shallow embedding of `src/server/server.js` (taxi-backend-server).

The source file concatenates three variants of the server. The second
variant (English strings, in-memory booking store) is the main one; the
first variant differs only in its German user-facing strings and in the
ride-type literal, and the third variant is an older handler without a
store whose catch block exposes `error.message`.

Modelling conventions:
- JS strings are Lean `String`s (the relevant data is ASCII).
- A parsed JSON body and a stored booking record are association lists
  `List (String × String)`; property access uses last-occurrence-wins
  lookup, matching both `JSON.parse` duplicate-key semantics and object
  literal / spread evaluation order.
- The JS `Map` `activeBookings` is an association list with unique keys,
  with `set`/`get`/`has`/`delete` modelling the `Map` methods.
- External effects (randomness from `crypto`/`Math.random`, the clock,
  `toLocaleString` date rendering, the mail transport) are parameters of
  the handler functions; a send failure is the `Option`-valued parameter
  `sendErr` being `some errMsg` (the rejection of `Promise.all`).
- Each handler returns its HTTP response, the new store, and a trace of
  the side effects in the order the source performs them.
-/

namespace TaxiServer

/-- A parsed JSON object with string-valued fields, in source order. -/
abbrev JsonObj := List (String × String)

/-- Property access on a JS object: with duplicate keys the last
occurrence wins, so we search the reversed field list. Returns `none`
for `undefined`. -/
def getField (o : JsonObj) (k : String) : Option String :=
  (o.reverse.find? (fun p => p.1 == k)).map (fun p => p.2)

/-- Interpolation of a possibly-undefined JS value into a template
literal: `undefined` renders as the string "undefined". -/
def jsStr (v : Option String) : String :=
  v.getD "undefined"

/-- The store `activeBookings`: a JS `Map` from cancellation token to
booking record, modelled as an association list with unique keys. -/
abbrev Store := List (String × JsonObj)

/-- `activeBookings.has(token)`. -/
def mapHas (m : Store) (k : String) : Bool :=
  m.any (fun p => p.1 == k)

/-- `activeBookings.get(token)`. -/
def mapGet (m : Store) (k : String) : Option JsonObj :=
  (m.find? (fun p => p.1 == k)).map (fun p => p.2)

/-- `activeBookings.set(token, record)`: replaces in place if the key is
present, otherwise appends (JS `Map` insertion-order semantics). -/
def mapSet (m : Store) (k : String) (v : JsonObj) : Store :=
  if mapHas m k then
    m.map (fun p => if p.1 == k then (k, v) else p)
  else
    m ++ [(k, v)]

/-- `activeBookings.delete(token)`. -/
def mapDelete (m : Store) (k : String) : Store :=
  m.filter (fun p => !(p.1 == k))

/-! ### Identifier generator (`generateBookingNumber`, `generateCancellationToken`) -/

/-- JS `s.slice(-6)`: the last 6 UTF-16 units, or all of `s` when it is
shorter than 6. -/
def jsSliceLast6 (s : String) : String :=
  String.mk (s.data.drop (s.data.length - 6))

/-- JS `s.padStart(3, '0')`. -/
def jsPadStart3 (s : String) : String :=
  if 3 ≤ s.data.length then s
  else String.mk (List.replicate (3 - s.data.length) '0' ++ s.data)

/-- `generateBookingNumber()`. `now` is `Date.now()` (epoch millis) and
`rand` is `Math.floor(Math.random() * 1000)`, both external inputs. -/
def generateBookingNumber (now rand : Nat) : String :=
  "TB" ++ jsSliceLast6 (Nat.repr now) ++ jsPadStart3 (Nat.repr rand)

/-- One nibble of `Buffer.toString('hex')`: lowercase hex digit. -/
def hexDigitChar (n : Nat) : Char :=
  if n < 10 then Char.ofNat (48 + n) else Char.ofNat (97 + (n - 10))

/-- `Buffer.toString('hex')`: two lowercase hex digits per byte. -/
def bytesToHex (bytes : List Nat) : String :=
  String.mk (bytes.flatMap (fun b => [hexDigitChar (b / 16), hexDigitChar (b % 16)]))

/-- `generateCancellationToken()`: hex encoding of the 32 random bytes
supplied by `crypto.randomBytes(32)`; the randomness is external, so the
bytes are a parameter. -/
def generateCancellationToken (bytes : List Nat) : String :=
  bytesToHex bytes

/-- A lowercase hex digit, the alphabet of `Buffer.toString('hex')`. -/
def isLowerHexDigit (c : Char) : Bool :=
  (48 ≤ c.toNat && c.toNat ≤ 57) || (97 ≤ c.toNat && c.toNat ≤ 102)

/-- Modelled from the spec: standard URL-query percent-encoding
(`encodeURIComponent`), an external platform facility, not repository
code. Unreserved characters pass through; others are percent-encoded
(non-ASCII multi-byte expansion is irrelevant for hex tokens and is
modelled as code-point hex). -/
def isUriUnreserved (c : Char) : Bool :=
  (65 ≤ c.toNat && c.toNat ≤ 90) || (97 ≤ c.toNat && c.toNat ≤ 122) ||
  (48 ≤ c.toNat && c.toNat ≤ 57) ||
  c == '-' || c == '_' || c == '.' || c == '!' || c == '~' || c == '*' ||
  c == '(' || c == ')'

/-- Percent-encoding of one character (see `isUriUnreserved`). -/
def encodeUriChar (c : Char) : List Char :=
  if isUriUnreserved c then [c]
  else '%' :: (Nat.toDigits 16 c.toNat)

/-- URL-query encoding of a string, character by character. -/
def encodeUriComponent (s : String) : String :=
  String.mk (s.data.flatMap encodeUriChar)

/-! ### Requested-time display (`formattedDateTime`) -/

/-- The `formattedDateTime` computation of the second (main) booking
handler. `fmt` models the external
`new Date(s).toLocaleString(en-US, dateStyle full, timeStyle short)`
rendering. Note the ride-type literal is the string "Scheduled Ride". -/
def formattedDateTime (fmt : String → String) (type dateTime : Option String) : String :=
  if type == some "Scheduled Ride" && !(dateTime == some "As soon as possible") then
    fmt (jsStr dateTime)
  else
    "As soon as possible"

/-- The `formattedDateTime` computation of the first (German) handler
variant: ride-type literal "Geplante Fahrt", immediate phrase "Sofort". -/
def formattedDateTimeDe (fmt : String → String) (type dateTime : Option String) : String :=
  if type == some "Geplante Fahrt" && !(dateTime == some "As soon as possible") then
    fmt (jsStr dateTime)
  else
    "Sofort"

/-! ### Mail templates (second handler variant; whitespace normalised) -/

/-- Customer confirmation mail, the part before the Date/Time value. -/
def customerMailBeforeDT (bookingNumber : String) (bd : JsonObj) : String :=
  "<h1>Your Ride Has Been Booked!</h1>\n" ++
  "<div style=\"background-color: #f3f4f6; padding: 15px; margin: 20px 0; border-radius: 5px;\">\n" ++
  "<h2 style=\"color: #1f2937; margin: 0;\">Booking Number: " ++ bookingNumber ++ "</h2>\n</div>\n" ++
  "<p>Thank you for choosing TaxiBoy. Here are your booking details:</p>\n" ++
  "<ul style=\"list-style: none; padding: 0;\">\n" ++
  "<li><strong>Booking Type:</strong> " ++ jsStr (getField bd "type") ++ "</li>\n" ++
  "<li><strong>Pickup Location:</strong> " ++ jsStr (getField bd "pickupLocation") ++ "</li>\n" ++
  "<li><strong>Destination:</strong> " ++ jsStr (getField bd "destination") ++ "</li>\n" ++
  "<li><strong>Date/Time:</strong> "

/-- Customer confirmation mail, the part after the Date/Time value. -/
def customerMailAfterDT (bd : JsonObj) (cancellationUrl : String) : String :=
  "</li>\n" ++
  "<li><strong>Vehicle Type:</strong> " ++ jsStr (getField bd "vehicleType") ++ "</li>\n" ++
  "<li><strong>Name:</strong> " ++ jsStr (getField bd "name") ++ "</li>\n" ++
  "<li><strong>Phone:</strong> " ++ jsStr (getField bd "phone") ++ "</li>\n" ++
  "<li><strong>Email:</strong> " ++ jsStr (getField bd "email") ++ "</li>\n</ul>\n" ++
  "<p>Please keep your booking number for future reference.</p>\n" ++
  "<div style=\"margin: 20px 0; padding: 15px; background-color: #fee2e2; border-radius: 5px;\">\n" ++
  "<p style=\"margin: 0; color: #991b1b;\">Need to cancel your ride?</p>\n" ++
  "<p style=\"margin: 5px 0;\">Click the link below to cancel your booking:</p>\n" ++
  "<a href=\"" ++ cancellationUrl ++
  "\" style=\"display: inline-block; padding: 10px 20px; background-color: #dc2626; color: white; text-decoration: none; border-radius: 5px;\">Cancel My Ride</a>\n</div>\n" ++
  "<p style=\"color: #6b7280; font-size: 0.875rem;\">If you need any other modifications to your booking, please contact our support team.</p>"

/-- Customer confirmation mail body (`customerMailOptions.html`). -/
def customerMailHtml (bookingNumber : String) (bd : JsonObj) (fdt cancellationUrl : String) : String :=
  customerMailBeforeDT bookingNumber bd ++ fdt ++ customerMailAfterDT bd cancellationUrl

/-- Admin notification mail body (`adminMailOptions.html`). -/
def adminMailHtml (bookingNumber : String) (bd : JsonObj) (fdt : String) : String :=
  "<h1>New Booking Received</h1>\n" ++
  "<div style=\"background-color: #f3f4f6; padding: 15px; margin: 20px 0; border-radius: 5px;\">\n" ++
  "<h2 style=\"color: #1f2937; margin: 0;\">Booking Number: " ++ bookingNumber ++ "</h2>\n</div>\n" ++
  "<p>A new booking has been received. Details below:</p>\n" ++
  "<ul style=\"list-style: none; padding: 0;\">\n" ++
  "<li><strong>Booking Type:</strong> " ++ jsStr (getField bd "type") ++ "</li>\n" ++
  "<li><strong>Pickup Location:</strong> " ++ jsStr (getField bd "pickupLocation") ++ "</li>\n" ++
  "<li><strong>Destination:</strong> " ++ jsStr (getField bd "destination") ++ "</li>\n" ++
  "<li><strong>Date/Time:</strong> " ++ fdt ++ "</li>\n" ++
  "<li><strong>Vehicle Type:</strong> " ++ jsStr (getField bd "vehicleType") ++ "</li>\n<hr>\n" ++
  "<li><strong>Customer Name:</strong> " ++ jsStr (getField bd "name") ++ "</li>\n" ++
  "<li><strong>Customer Phone:</strong> " ++ jsStr (getField bd "phone") ++ "</li>\n" ++
  "<li><strong>Customer Email:</strong> " ++ jsStr (getField bd "email") ++ "</li>\n</ul>\n" ++
  "<p>Please assign a driver to this booking.</p>"

/-- Customer cancellation confirmation mail body. -/
def customerCancelHtml (booking : JsonObj) : String :=
  "<h1>Your Ride Has Been Cancelled</h1>\n" ++
  "<div style=\"background-color: #fee2e2; padding: 15px; margin: 20px 0; border-radius: 5px;\">\n" ++
  "<h2 style=\"color: #991b1b; margin: 0;\">Booking #" ++ jsStr (getField booking "bookingNumber") ++
  " has been cancelled</h2>\n</div>\n" ++
  "<p>Your booking has been successfully cancelled. Here are the details of the cancelled booking:</p>\n" ++
  "<ul style=\"list-style: none; padding: 0;\">\n" ++
  "<li><strong>Booking Number:</strong> " ++ jsStr (getField booking "bookingNumber") ++ "</li>\n" ++
  "<li><strong>Name:</strong> " ++ jsStr (getField booking "name") ++ "</li>\n" ++
  "<li><strong>Pickup Location:</strong> " ++ jsStr (getField booking "pickupLocation") ++ "</li>\n" ++
  "<li><strong>Destination:</strong> " ++ jsStr (getField booking "destination") ++ "</li>\n</ul>\n" ++
  "<p>If you need to book another ride, please visit our website.</p>\n" ++
  "<p>Thank you for choosing TaxiBoy!</p>"

/-- Admin cancellation notice mail body. -/
def adminCancelHtml (booking : JsonObj) : String :=
  "<h1>Booking Cancellation Notice</h1>\n" ++
  "<div style=\"background-color: #fee2e2; padding: 15px; margin: 20px 0; border-radius: 5px;\">\n" ++
  "<h2 style=\"color: #991b1b; margin: 0;\">Booking #" ++ jsStr (getField booking "bookingNumber") ++
  " has been cancelled</h2>\n</div>\n" ++
  "<p>A customer has cancelled their booking. Details below:</p>\n" ++
  "<ul style=\"list-style: none; padding: 0;\">\n" ++
  "<li><strong>Booking Number:</strong> " ++ jsStr (getField booking "bookingNumber") ++ "</li>\n" ++
  "<li><strong>Customer Name:</strong> " ++ jsStr (getField booking "name") ++ "</li>\n" ++
  "<li><strong>Customer Email:</strong> " ++ jsStr (getField booking "email") ++ "</li>\n" ++
  "<li><strong>Customer Phone:</strong> " ++ jsStr (getField booking "phone") ++ "</li>\n" ++
  "<li><strong>Pickup Location:</strong> " ++ jsStr (getField booking "pickupLocation") ++ "</li>\n" ++
  "<li><strong>Destination:</strong> " ++ jsStr (getField booking "destination") ++ "</li>\n" ++
  "<li><strong>Vehicle Type:</strong> " ++ jsStr (getField booking "vehicleType") ++ "</li>\n</ul>\n" ++
  "<p>Please update the scheduling system accordingly.</p>"

/-- HTML confirmation page returned on successful cancellation (CSS
braces written as escapes). -/
def cancelSuccessPage (booking : JsonObj) : String :=
  "<html>\n<head>\n<title>Booking Cancelled</title>\n<style>\n" ++
  "body \x7b font-family: Arial, sans-serif; max-width: 600px; margin: 40px auto; padding: 20px; text-align: center; \x7d\n" ++
  ".success-box \x7b background-color: #fee2e2; border-radius: 8px; padding: 20px; margin: 20px 0; \x7d\n" ++
  ".booking-number \x7b font-size: 1.2em; font-weight: bold; color: #991b1b; \x7d\n" ++
  "</style>\n</head>\n<body>\n<div class=\"success-box\">\n" ++
  "<h1>Booking Cancelled Successfully</h1>\n" ++
  "<p class=\"booking-number\">Booking #" ++ jsStr (getField booking "bookingNumber") ++ "</p>\n</div>\n" ++
  "<p>Your booking has been cancelled and you will receive a confirmation email shortly.</p>\n" ++
  "<p>Thank you for using TaxiBoy!</p>\n</body>\n</html>"

/-! ### The booking handler (`POST /api/book-ride`, second variant) -/

/-- An observable side effect of a handler, in execution order. -/
inductive Event where
  | storeSet (token : String) (record : JsonObj)
  | sendMail (recipient subject html : String)
  | deleteToken (token : String)
deriving DecidableEq

/-- Whether an event is a mail-dispatch attempt. -/
def Event.isSend : Event → Bool
  | Event.sendMail _ _ _ => true
  | _ => false

/-- JSON body of the booking response. -/
structure BookResponse where
  status : Nat
  success : Bool
  message : Option String
  error : Option String
  bookingNumber : Option String
deriving DecidableEq

/-- Result of one booking request: response, store after, effect trace. -/
structure BookOutcome where
  response : BookResponse
  store : Store
  events : List Event
deriving DecidableEq

/-- The record stored by `activeBookings.set(cancellationToken, ...)`:
the object literal spread preserves evaluation order, so a
`bookingNumber` field inside the body overwrites the generated one,
while `timestamp` is written last and cannot be overwritten. -/
def mkStoredRecord (bookingNumber : String) (bookingData : JsonObj) (timestamp : String) : JsonObj :=
  [("bookingNumber", bookingNumber)] ++ bookingData ++ [("timestamp", timestamp)]

/-- The `POST /api/book-ride` handler (second variant). External inputs:
`now`/`rand` feed the booking-number generator, `cancellationToken` is
the generated token, `timestamp` is `new Date().toISOString()`, `fmt`
the locale date renderer, `sendErr` the outcome of
`Promise.all([sendMail, sendMail])` (`some errMsg` means rejection,
caught by the catch block). -/
def bookRide (store : Store) (bookingData : JsonObj) (now rand : Nat)
    (cancellationToken timestamp : String) (fmt : String → String)
    (port emailUser : String) (sendErr : Option String) : BookOutcome :=
  let bookingNumber := generateBookingNumber now rand
  let cancellationUrl := "http://localhost:" ++ port ++ "/api/cancel-ride?token=" ++ cancellationToken
  let record := mkStoredRecord bookingNumber bookingData timestamp
  let store1 := mapSet store cancellationToken record
  let fdt := formattedDateTime fmt (getField bookingData "type") (getField bookingData "dateTime")
  let events := [Event.storeSet cancellationToken record,
                 Event.sendMail (jsStr (getField bookingData "email"))
                   ("TaxiBoy - Booking Confirmation #" ++ bookingNumber)
                   (customerMailHtml bookingNumber bookingData fdt cancellationUrl),
                 Event.sendMail emailUser
                   ("[ADMIN] New Booking #" ++ bookingNumber)
                   (adminMailHtml bookingNumber bookingData fdt)]
  match sendErr with
  | none =>
    { response := { status := 200, success := true,
                    message := some "Booking confirmed! Check your email (spam folder) for details.",
                    error := none, bookingNumber := some bookingNumber },
      store := store1, events := events }
  | some _ =>
    { response := { status := 500, success := false, message := none,
                    error := some "Failed to process booking. Please try again.",
                    bookingNumber := none },
      store := store1, events := events }

/-! ### The cancellation handler (`GET /api/cancel-ride`, second variant) -/

/-- 404 body of the cancellation handler. -/
def notFoundBody : String := "Booking not found or already cancelled."

/-- 500 body of the cancellation handler's catch block. -/
def cancelFailBody : String := "Failed to cancel booking. Please try again or contact support."

/-- Result of one cancellation request. -/
structure CancelOutcome where
  status : Nat
  body : String
  store : Store
  events : List Event
deriving DecidableEq

/-- The `GET /api/cancel-ride` handler. `token` is `req.query.token`
(`none` when the query parameter is absent; `has(undefined)` is false
since only generated string tokens are ever inserted). `sendErr` is the
outcome of the `Promise.all` of the two cancellation mails. -/
def cancelRide (store : Store) (token : Option String) (emailUser : String)
    (sendErr : Option String) : CancelOutcome :=
  match token with
  | none => { status := 404, body := notFoundBody, store := store, events := [] }
  | some t =>
    if mapHas store t then
      match mapGet store t with
      | some booking =>
        let events := [Event.sendMail (jsStr (getField booking "email"))
                         ("TaxiBoy - Booking Cancellation Confirmation #" ++
                          jsStr (getField booking "bookingNumber"))
                         (customerCancelHtml booking),
                       Event.sendMail emailUser
                         ("[ADMIN] Booking Cancelled #" ++ jsStr (getField booking "bookingNumber"))
                         (adminCancelHtml booking)]
        match sendErr with
        | none =>
          { status := 200, body := cancelSuccessPage booking,
            store := mapDelete store t, events := events ++ [Event.deleteToken t] }
        | some _ =>
          { status := 500, body := cancelFailBody, store := store, events := events }
      | none => { status := 404, body := notFoundBody, store := store, events := [] }
    else { status := 404, body := notFoundBody, store := store, events := [] }

/-- `activeBookings.has(req.query.token)` for a possibly-absent token. -/
def queryTokenHas (store : Store) : Option String → Bool
  | none => false
  | some t => mapHas store t

/-! ### Third handler variant (no store; catch exposes `error.message`) -/

/-- JSON body of the third variant's response. -/
structure V3Response where
  status : Nat
  message : String
  error : Option String
deriving DecidableEq

/-- Response of the third booking-handler variant: its catch block
returns both a generic message and `error: error.message`. -/
def bookRideV3Response (sendErr : Option String) : V3Response :=
  match sendErr with
  | none => { status := 200, message := "Booking confirmed! Check your email for details.", error := none }
  | some errMsg =>
    { status := 500, message := "Failed to process booking. Please try again.", error := some errMsg }

/-! ### Interleaving model of two concurrent cancellation requests

The handler body has exactly one suspension point: the
`await Promise.all(...)` between the `has`/`get` check and the
`delete`. Each request is therefore two atomic blocks; a schedule
interleaves the blocks of two requests for the same token. -/

/-- Control state of one in-flight cancellation request. -/
inductive CPhase where
  | start
  | sending (booking : JsonObj)
  | done (status : Nat) (body : String)
deriving DecidableEq

/-- Run the next atomic block of one cancellation request: the first
block is everything up to the `await` (lookup and mail construction),
the second block resumes after the sends (delete and respond). -/
def cancelStep (store : Store) (t : String) (sendErr : Option String) : CPhase → Store × CPhase
  | CPhase.start =>
    if mapHas store t then
      match mapGet store t with
      | some booking => (store, CPhase.sending booking)
      | none => (store, CPhase.done 404 notFoundBody)
    else (store, CPhase.done 404 notFoundBody)
  | CPhase.sending booking =>
    match sendErr with
    | none => (mapDelete store t, CPhase.done 200 (cancelSuccessPage booking))
    | some _ => (store, CPhase.done 500 cancelFailBody)
  | CPhase.done s b => (store, CPhase.done s b)

/-- The HTTP status of a finished request, if finished. -/
def phaseStatus : CPhase → Option Nat
  | CPhase.done s _ => some s
  | _ => none

/-- Shared store plus the control states of two in-flight requests. -/
structure TwoReqs where
  store : Store
  reqA : CPhase
  reqB : CPhase
deriving DecidableEq

/-- Run a schedule: `true` steps request A, `false` steps request B. -/
def runSched (t : String) (sendErr : Option String) : List Bool → TwoReqs → TwoReqs
  | [], st => st
  | true :: rest, st =>
    let p := cancelStep st.store t sendErr st.reqA
    runSched t sendErr rest { store := p.1, reqA := p.2, reqB := st.reqB }
  | false :: rest, st =>
    let p := cancelStep st.store t sendErr st.reqB
    runSched t sendErr rest { store := p.1, reqA := st.reqA, reqB := p.2 }

/-- A concrete store with one active booking, for the race scenario. -/
def raceStore : Store :=
  [("tok0", [("bookingNumber", "TB123456001"), ("email", "customer@example.com"),
             ("name", "Alice"), ("pickupLocation", "A"), ("destination", "B"),
             ("phone", "1"), ("vehicleType", "sedan")])]

/-! ### Store lemmas -/

theorem mapHas_set_self (m : Store) (k : String) (v : JsonObj) :
    mapHas (mapSet m k v) k = true := by
  unfold mapSet
  split
  · rename_i h
    unfold mapHas at h ⊢
    rw [List.any_eq_true] at h ⊢
    obtain ⟨p, hp, hpk⟩ := h
    refine ⟨(k, v), List.mem_map.mpr ⟨p, hp, ?_⟩, by simp⟩
    simp [hpk]
  · unfold mapHas
    rw [List.any_eq_true]
    exact ⟨(k, v), by simp, by simp⟩

theorem find?_map_replace (m : Store) (k : String) (v : JsonObj)
    (h : mapHas m k = true) :
    (m.map (fun p => if p.1 == k then (k, v) else p)).find? (fun p => p.1 == k)
      = some (k, v) := by
  induction m with
  | nil => simp [mapHas] at h
  | cons p t ih =>
    by_cases hp : (p.1 == k) = true
    · rw [List.map_cons, if_pos hp]
      exact List.find?_cons_of_pos _ (by simp)
    · rw [List.map_cons, if_neg hp,
        List.find?_cons_of_neg (p := fun q : String × JsonObj => q.1 == k) _ hp]
      apply ih
      unfold mapHas at h ⊢
      rw [List.any_eq_true] at h ⊢
      obtain ⟨q, hq, hqk⟩ := h
      rcases List.mem_cons.mp hq with rfl | hq'
      · exact absurd hqk hp
      · exact ⟨q, hq', hqk⟩

theorem mapGet_set_self (m : Store) (k : String) (v : JsonObj) :
    mapGet (mapSet m k v) k = some v := by
  unfold mapSet
  split
  · rename_i h
    unfold mapGet
    rw [find?_map_replace m k v h]
    rfl
  · rename_i h
    unfold mapGet
    rw [List.find?_append]
    have hnone : m.find? (fun p => p.1 == k) = none := by
      rw [List.find?_eq_none]
      intro x hx hpx
      exact h (by unfold mapHas; rw [List.any_eq_true]; exact ⟨x, hx, hpx⟩)
    rw [hnone]
    simp [List.find?]

theorem mapHas_delete_self (m : Store) (k : String) :
    mapHas (mapDelete m k) k = false := by
  unfold mapHas mapDelete
  rw [Bool.eq_false_iff]
  intro hc
  rw [List.any_eq_true] at hc
  obtain ⟨p, hp, hpk⟩ := hc
  have hmem := List.mem_filter.mp hp
  rw [hpk] at hmem
  simp at hmem

theorem mapGet_isSome_of_has (m : Store) (k : String) (h : mapHas m k = true) :
    ∃ b, mapGet m k = some b := by
  unfold mapHas at h
  rw [List.any_eq_true] at h
  obtain ⟨p, hp, hpk⟩ := h
  have hs : (m.find? (fun q => q.1 == k)).isSome = true :=
    List.find?_isSome.mpr ⟨p, hp, hpk⟩
  obtain ⟨q, hq⟩ := Option.isSome_iff_exists.mp hs
  exact ⟨q.2, by unfold mapGet; rw [hq]; rfl⟩

/-! ### Stored-record lemmas -/

theorem getField_record_timestamp (bn : String) (bd : JsonObj) (ts : String) :
    getField (mkStoredRecord bn bd ts) "timestamp" = some ts := by
  unfold getField mkStoredRecord
  rw [List.reverse_append, List.reverse_append]
  rw [show ([("timestamp", ts)] : JsonObj).reverse = [("timestamp", ts)] from rfl]
  rw [List.find?_append, List.find?_cons_of_pos _ (by simp)]
  rfl

theorem getField_record_bookingNumber (bn : String) (bd : JsonObj) (ts v : String)
    (h : getField bd "bookingNumber" = some v) :
    getField (mkStoredRecord bn bd ts) "bookingNumber" = some v := by
  obtain ⟨p, hp, hpv⟩ :
      ∃ p, bd.reverse.find? (fun q => q.1 == "bookingNumber") = some p ∧ p.2 = v := by
    unfold getField at h
    cases hf : bd.reverse.find? (fun q => q.1 == "bookingNumber") with
    | none => rw [hf] at h; simp at h
    | some p => rw [hf] at h; simp at h; exact ⟨p, rfl, h⟩
  unfold getField mkStoredRecord
  rw [List.reverse_append, List.reverse_append]
  rw [show ([("timestamp", ts)] : JsonObj).reverse = [("timestamp", ts)] from rfl]
  rw [List.find?_append, List.find?_cons_of_neg _ (by simp), List.find?_append, hp]
  simp [hpv]

/-! ### Cancellation-handler shape lemmas -/

theorem cancelRide_absent (store : Store) (t emailUser : String) (sendErr : Option String)
    (h : mapHas store t = false) :
    cancelRide store (some t) emailUser sendErr =
      { status := 404, body := notFoundBody, store := store, events := [] } := by
  simp [cancelRide, h]

theorem cancelRide_found_ok (store : Store) (t emailUser : String) (booking : JsonObj)
    (h : mapHas store t = true) (hg : mapGet store t = some booking) :
    cancelRide store (some t) emailUser none =
      { status := 200, body := cancelSuccessPage booking,
        store := mapDelete store t,
        events := [Event.sendMail (jsStr (getField booking "email"))
                     ("TaxiBoy - Booking Cancellation Confirmation #" ++
                      jsStr (getField booking "bookingNumber"))
                     (customerCancelHtml booking),
                   Event.sendMail emailUser
                     ("[ADMIN] Booking Cancelled #" ++ jsStr (getField booking "bookingNumber"))
                     (adminCancelHtml booking),
                   Event.deleteToken t] } := by
  simp [cancelRide, h, hg]

theorem cancelRide_found_err (store : Store) (t emailUser errMsg : String) (booking : JsonObj)
    (h : mapHas store t = true) (hg : mapGet store t = some booking) :
    cancelRide store (some t) emailUser (some errMsg) =
      { status := 500, body := cancelFailBody, store := store,
        events := [Event.sendMail (jsStr (getField booking "email"))
                     ("TaxiBoy - Booking Cancellation Confirmation #" ++
                      jsStr (getField booking "bookingNumber"))
                     (customerCancelHtml booking),
                   Event.sendMail emailUser
                     ("[ADMIN] Booking Cancelled #" ++ jsStr (getField booking "bookingNumber"))
                     (adminCancelHtml booking)] } := by
  simp [cancelRide, h, hg]

/-! ### Claim theorems -/

/-- C3: the booking record is persisted to the store, keyed by the
cancellation token with the server-assigned creation timestamp, before
the two notification sends are attempted; when a send fails the
response is a generic 500 with `success: false` and the persisted
record is still in the store (no rollback). -/
theorem book_persist_before_send (store : Store) (bd : JsonObj) (now rand : Nat)
    (token ts : String) (fmt : String → String) (port emailUser errMsg : String) :
    (bookRide store bd now rand token ts fmt port emailUser (some errMsg)).response.status = 500 ∧
    (bookRide store bd now rand token ts fmt port emailUser (some errMsg)).response.success = false ∧
    (bookRide store bd now rand token ts fmt port emailUser (some errMsg)).response.error
      = some "Failed to process booking. Please try again." ∧
    (bookRide store bd now rand token ts fmt port emailUser (some errMsg)).store
      = mapSet store token (mkStoredRecord (generateBookingNumber now rand) bd ts) ∧
    mapGet (bookRide store bd now rand token ts fmt port emailUser (some errMsg)).store token
      = some (mkStoredRecord (generateBookingNumber now rand) bd ts) ∧
    mapHas (bookRide store bd now rand token ts fmt port emailUser (some errMsg)).store token
      = true ∧
    (∀ sendErr : Option String, ∃ e1 e2 : Event,
      (bookRide store bd now rand token ts fmt port emailUser sendErr).events
        = [Event.storeSet token (mkStoredRecord (generateBookingNumber now rand) bd ts),
           e1, e2] ∧ e1.isSend = true ∧ e2.isSend = true) := by
  refine ⟨rfl, rfl, rfl, rfl, mapGet_set_self _ _ _, mapHas_set_self _ _ _, ?_⟩
  intro sendErr
  cases sendErr with
  | none => exact ⟨_, _, rfl, rfl, rfl⟩
  | some e => exact ⟨_, _, rfl, rfl, rfl⟩

/-- C4: for a token not present in the store (including an absent query
parameter) the cancellation handler answers 404 with the fixed
not-found body, mutates nothing, sends nothing, and repeating the same
request gives the identical outcome. -/
theorem cancel_unknown_token_idempotent (store : Store) (token : Option String)
    (emailUser : String) (sendErr : Option String)
    (h : queryTokenHas store token = false) :
    (cancelRide store token emailUser sendErr).status = 404 ∧
    (cancelRide store token emailUser sendErr).body = notFoundBody ∧
    (cancelRide store token emailUser sendErr).store = store ∧
    (cancelRide store token emailUser sendErr).events = [] ∧
    cancelRide (cancelRide store token emailUser sendErr).store token emailUser sendErr
      = cancelRide store token emailUser sendErr := by
  cases token with
  | none => exact ⟨rfl, rfl, rfl, rfl, rfl⟩
  | some t =>
    have h' : mapHas store t = false := h
    have hr := cancelRide_absent store t emailUser sendErr h'
    refine ⟨by rw [hr], by rw [hr], by rw [hr], by rw [hr], ?_⟩
    rw [hr]
    exact hr

/-- C4 witness: a concrete store and a token it does not contain. -/
theorem cancel_unknown_token_idempotent_witness :
    queryTokenHas [("t0", [("email", "c@x.y")])] (some "t1") = false ∧
    (cancelRide [("t0", [("email", "c@x.y")])] (some "t1") "admin@x.y" none).status = 404 := by
  refine ⟨by decide, ?_⟩
  obtain ⟨h404, -, -, -, -⟩ :=
    cancel_unknown_token_idempotent [("t0", [("email", "c@x.y")])] (some "t1")
      "admin@x.y" none (by decide)
  exact h404

/-- C2: for a token present in the store, the record is deleted only
after both cancellation mails are dispatched (the delete is the last
event, after the two sends); when sending throws, the handler answers a
generic 500 and the record is still in the store, so the same link can
be retried. -/
theorem cancel_delete_after_send (store : Store) (t emailUser errMsg : String)
    (h : mapHas store t = true) :
    ∃ booking : JsonObj, mapGet store t = some booking ∧
      (cancelRide store (some t) emailUser (some errMsg)).status = 500 ∧
      (cancelRide store (some t) emailUser (some errMsg)).body = cancelFailBody ∧
      (cancelRide store (some t) emailUser (some errMsg)).store = store ∧
      mapHas (cancelRide store (some t) emailUser (some errMsg)).store t = true ∧
      (∀ e ∈ (cancelRide store (some t) emailUser (some errMsg)).events, e.isSend = true) ∧
      (cancelRide store (some t) emailUser none).status = 200 ∧
      (cancelRide store (some t) emailUser none).store = mapDelete store t ∧
      (∃ e1 e2 : Event,
        (cancelRide store (some t) emailUser none).events = [e1, e2, Event.deleteToken t] ∧
        e1.isSend = true ∧ e2.isSend = true) := by
  obtain ⟨booking, hg⟩ := mapGet_isSome_of_has store t h
  have herr := cancelRide_found_err store t emailUser errMsg booking h hg
  have hok := cancelRide_found_ok store t emailUser booking h hg
  refine ⟨booking, hg, by rw [herr], by rw [herr], by rw [herr], ?_, ?_, by rw [hok],
    by rw [hok], ?_⟩
  · rw [herr]
    exact h
  · rw [herr]
    intro e he
    rcases List.mem_cons.mp he with rfl | he
    · rfl
    · rcases List.mem_cons.mp he with rfl | he
      · rfl
      · cases he
  · rw [hok]
    exact ⟨_, _, rfl, rfl, rfl⟩

/-- C2 witness: a concrete one-entry store. -/
theorem cancel_delete_after_send_witness :
    mapHas [("t0", [("bookingNumber", "TB000000000"), ("email", "c@x.y")])] "t0" = true ∧
    ∃ booking : JsonObj,
      mapGet [("t0", [("bookingNumber", "TB000000000"), ("email", "c@x.y")])] "t0"
        = some booking := by
  refine ⟨by decide, ?_⟩
  obtain ⟨booking, hg, -⟩ :=
    cancel_delete_after_send [("t0", [("bookingNumber", "TB000000000"), ("email", "c@x.y")])]
      "t0" "admin@x.y" "boom" (by decide)
  exact ⟨booking, hg⟩

/-- C5: booking then cancelling with the returned token removes the
record (`has(token)` is false afterwards) and a further cancellation
with the same token reports not-found. -/
theorem book_cancel_roundtrip (store : Store) (bd : JsonObj) (now rand : Nat)
    (token ts : String) (fmt : String → String) (port emailUser : String) :
    let booked := bookRide store bd now rand token ts fmt port emailUser none
    let c1 := cancelRide booked.store (some token) emailUser none
    let c2 := cancelRide c1.store (some token) emailUser none
    booked.response.success = true ∧
    booked.response.bookingNumber = some (generateBookingNumber now rand) ∧
    mapHas booked.store token = true ∧
    c1.status = 200 ∧
    mapHas c1.store token = false ∧
    c2.status = 404 ∧ c2.body = notFoundBody ∧ c2.store = c1.store := by
  intro booked c1 c2
  have hbs : booked.store
      = mapSet store token (mkStoredRecord (generateBookingNumber now rand) bd ts) := rfl
  have hhas : mapHas booked.store token = true := by
    rw [hbs]; exact mapHas_set_self _ _ _
  have hget : mapGet booked.store token
      = some (mkStoredRecord (generateBookingNumber now rand) bd ts) := by
    rw [hbs]; exact mapGet_set_self _ _ _
  have hc1 := cancelRide_found_ok booked.store token emailUser _ hhas hget
  have hc1s : c1.store = mapDelete booked.store token := by
    show (cancelRide booked.store (some token) emailUser none).store = _
    rw [hc1]
  have hafter : mapHas c1.store token = false := by
    rw [hc1s]; exact mapHas_delete_self _ _
  have hc2 := cancelRide_absent c1.store token emailUser none hafter
  refine ⟨rfl, rfl, hhas, ?_, hafter, by rw [show c2 = _ from hc2], by rw [show c2 = _ from hc2],
    by rw [show c2 = _ from hc2]⟩
  show (cancelRide booked.store (some token) emailUser none).status = 200
  rw [hc1]

/-- C10: because the stored record is `[bookingNumber] ++ body ++
[timestamp]` with last-occurrence-wins lookup, a client-supplied
`bookingNumber` body field overwrites the generated number in the
stored record while the response still returns the generated one; a
client-supplied `timestamp` can never override the server timestamp. -/
theorem client_bookingNumber_overwrites_store (bd : JsonObj) (v : String) (now rand : Nat)
    (ts : String)
    (h : getField bd "bookingNumber" = some v) :
    getField (mkStoredRecord (generateBookingNumber now rand) bd ts) "bookingNumber" = some v ∧
    (∀ (store : Store) (token : String) (fmt : String → String) (port emailUser : String),
      (bookRide store bd now rand token ts fmt port emailUser none).response.bookingNumber
        = some (generateBookingNumber now rand) ∧
      mapGet (bookRide store bd now rand token ts fmt port emailUser none).store token
        = some (mkStoredRecord (generateBookingNumber now rand) bd ts)) ∧
    (∀ (bd' : JsonObj) (bn : String),
      getField (mkStoredRecord bn bd' ts) "timestamp" = some ts) := by
  refine ⟨getField_record_bookingNumber _ _ _ _ h, ?_, ?_⟩
  · intro store token fmt port emailUser
    exact ⟨rfl, mapGet_set_self _ _ _⟩
  · intro bd' bn
    exact getField_record_timestamp _ _ _

/-- C10 witness: a body that smuggles its own `bookingNumber`. -/
theorem client_bookingNumber_overwrites_store_witness :
    getField [("bookingNumber", "HACK"), ("email", "c@x.y")] "bookingNumber" = some "HACK" ∧
    getField (mkStoredRecord (generateBookingNumber 1700000000000 7)
        [("bookingNumber", "HACK"), ("email", "c@x.y")] "2026-10-11T00:00:00.000Z")
      "bookingNumber" = some "HACK" := by
  refine ⟨by decide, ?_⟩
  obtain ⟨h1, -, -⟩ :=
    client_bookingNumber_overwrites_store [("bookingNumber", "HACK"), ("email", "c@x.y")]
      "HACK" 1700000000000 7 "2026-10-11T00:00:00.000Z" (by decide)
  exact h1

/-- C1 counterexample: a booking submitted with ride type literally
"scheduled" does not take the formatted-date branch — the handler
compares against the literal "Scheduled Ride" (resp. "Geplante Fahrt"
in the German variant) — so for type "scheduled" and dateTime
"2025-03-01T10:00:00Z" the display is the immediate-dispatch phrase,
not the locale-formatted full date. -/
theorem scheduled_literal_counterexample :
    formattedDateTime (fun _ => "Saturday, March 1, 2025 at 10:00 AM")
        (some "scheduled") (some "2025-03-01T10:00:00Z") = "As soon as possible" ∧
    formattedDateTime (fun _ => "Saturday, March 1, 2025 at 10:00 AM")
        (some "scheduled") (some "2025-03-01T10:00:00Z")
      ≠ "Saturday, March 1, 2025 at 10:00 AM" ∧
    formattedDateTimeDe (fun _ => "Samstag, 1. Maerz 2025 um 10:00")
        (some "scheduled") (some "2025-03-01T10:00:00Z") = "Sofort" := by
  decide

/-- C1 (amended): the requested-time display equals the locale-formatted
rendering exactly when the submitted ride type is the literal
"Scheduled Ride" and the dateTime is not the sentinel; in that case the
customer message contains the formatted value, and in every other case
the display is the immediate-dispatch phrase. -/
theorem formattedDateTime_scheduled_ride (fmt : String → String) (bd : JsonObj)
    (bn url dt : String)
    (htype : getField bd "type" = some "Scheduled Ride")
    (hdt : getField bd "dateTime" = some dt)
    (hne : dt ≠ "As soon as possible") :
    formattedDateTime fmt (getField bd "type") (getField bd "dateTime") = fmt dt ∧
    (∃ pre post : String,
      customerMailHtml bn bd
          (formattedDateTime fmt (getField bd "type") (getField bd "dateTime")) url
        = pre ++ fmt dt ++ post) ∧
    (∀ ty dt' : Option String,
      ty ≠ some "Scheduled Ride" ∨ dt' = some "As soon as possible" →
      formattedDateTime fmt ty dt' = "As soon as possible") := by
  have h1 : formattedDateTime fmt (getField bd "type") (getField bd "dateTime") = fmt dt := by
    rw [htype, hdt]
    simp [formattedDateTime, jsStr, hne]
  refine ⟨h1, ⟨customerMailBeforeDT bn bd, customerMailAfterDT bd url, ?_⟩, ?_⟩
  · unfold customerMailHtml
    rw [h1]
  · intro ty dt' hcase
    rcases hcase with hty | rfl
    · have hbf : (ty == some "Scheduled Ride") = false := by
        rw [beq_eq_false_iff_ne]
        exact hty
      simp [formattedDateTime, hbf]
    · simp [formattedDateTime]

/-- C1 witness: a correctly-typed scheduled booking body. -/
theorem formattedDateTime_scheduled_ride_witness :
    getField [("type", "Scheduled Ride"), ("dateTime", "2025-03-01T10:00:00Z")] "type"
      = some "Scheduled Ride" ∧
    getField [("type", "Scheduled Ride"), ("dateTime", "2025-03-01T10:00:00Z")] "dateTime"
      = some "2025-03-01T10:00:00Z" ∧
    ("2025-03-01T10:00:00Z" : String) ≠ "As soon as possible" ∧
    formattedDateTime (fun _ => "Saturday, March 1, 2025 at 10:00 AM")
        (getField [("type", "Scheduled Ride"), ("dateTime", "2025-03-01T10:00:00Z")] "type")
        (getField [("type", "Scheduled Ride"), ("dateTime", "2025-03-01T10:00:00Z")] "dateTime")
      = "Saturday, March 1, 2025 at 10:00 AM" := by
  refine ⟨by decide, by decide, by decide, ?_⟩
  obtain ⟨h1, -, -⟩ :=
    formattedDateTime_scheduled_ride (fun _ => "Saturday, March 1, 2025 at 10:00 AM")
      [("type", "Scheduled Ride"), ("dateTime", "2025-03-01T10:00:00Z")] "TB1" "u"
      "2025-03-01T10:00:00Z" (by decide) (by decide) (by decide)
  exact h1

/-- C9 counterexample: the third handler variant's catch block returns
`error: error.message`, so two distinct underlying send errors produce
distinct response bodies, and the body contains the error's details. -/
theorem error_leak_counterexample :
    bookRideV3Response (some "Invalid login: 535 Authentication failed")
      ≠ bookRideV3Response (some "Connection timeout") ∧
    (bookRideV3Response (some "Invalid login: 535 Authentication failed")).error
      = some "Invalid login: 535 Authentication failed" ∧
    (bookRideV3Response (some "Invalid login: 535 Authentication failed")).status = 500 := by
  decide

/-- C9 (amended): in the main (second) booking handler the 500 response
is a fixed generic body, identical for any two underlying send errors
and never containing their details, while the third variant's response
carries `error.message` verbatim. -/
theorem book_error_response_generic (store : Store) (bd : JsonObj) (now rand : Nat)
    (token ts : String) (fmt : String → String) (port emailUser : String) (e1 e2 : String) :
    (bookRide store bd now rand token ts fmt port emailUser (some e1)).response
      = (bookRide store bd now rand token ts fmt port emailUser (some e2)).response ∧
    (bookRide store bd now rand token ts fmt port emailUser (some e1)).response.error
      = some "Failed to process booking. Please try again." ∧
    (bookRide store bd now rand token ts fmt port emailUser (some e1)).response.status = 500 ∧
    (∀ f : String, (bookRideV3Response (some f)).error = some f) :=
  ⟨rfl, rfl, rfl, fun _ => rfl⟩

/-- C6: the check-then-delete sequence is split by the `await` of the
two cancellation mails, so the interleaving A-check, B-check, A-resume,
B-resume of two concurrent cancellations of the same present token
makes BOTH requests answer 200 (the code is not an atomic
remove-if-present); only the fully sequential schedule yields the
claimed one-success-one-404 outcome. -/
theorem concurrent_cancel_double_success :
    mapHas raceStore "tok0" = true ∧
    phaseStatus (runSched "tok0" none [true, false, true, false]
        { store := raceStore, reqA := CPhase.start, reqB := CPhase.start }).reqA = some 200 ∧
    phaseStatus (runSched "tok0" none [true, false, true, false]
        { store := raceStore, reqA := CPhase.start, reqB := CPhase.start }).reqB = some 200 ∧
    (runSched "tok0" none [true, false, true, false]
        { store := raceStore, reqA := CPhase.start, reqB := CPhase.start }).store = [] ∧
    phaseStatus (runSched "tok0" none [true, true, false, false]
        { store := raceStore, reqA := CPhase.start, reqB := CPhase.start }).reqA = some 200 ∧
    phaseStatus (runSched "tok0" none [true, true, false, false]
        { store := raceStore, reqA := CPhase.start, reqB := CPhase.start }).reqB = some 404 := by
  decide

/-! ### Token and booking-number lemmas -/

theorem hexDigitChar_lower (n : Nat) (h : n < 16) :
    isLowerHexDigit (hexDigitChar n) = true := by
  revert n h
  decide

theorem uriUnreserved_of_hexDigit (c : Char) (h : isLowerHexDigit c = true) :
    isUriUnreserved c = true := by
  simp only [isLowerHexDigit, Bool.or_eq_true, Bool.and_eq_true, decide_eq_true_eq] at h
  simp only [isUriUnreserved, Bool.or_eq_true, Bool.and_eq_true, decide_eq_true_eq]
  rcases h with ⟨h1, h2⟩ | ⟨h1, h2⟩
  · exact Or.inl (Or.inl (Or.inl (Or.inl (Or.inl (Or.inl (Or.inl (Or.inl
      (Or.inr ⟨h1, h2⟩))))))))
  · exact Or.inl (Or.inl (Or.inl (Or.inl (Or.inl (Or.inl (Or.inl (Or.inl
      (Or.inl (Or.inr ⟨h1, by omega⟩)))))))))

theorem hexPair_length (bytes : List Nat) :
    (bytes.flatMap (fun b => [hexDigitChar (b / 16), hexDigitChar (b % 16)])).length
      = 2 * bytes.length := by
  induction bytes with
  | nil => rfl
  | cons b t ih =>
    rw [List.flatMap_cons, List.length_append, ih]
    simp [Nat.mul_succ]
    omega

theorem bytesToHex_chars (bytes : List Nat) (h : ∀ b ∈ bytes, b < 256) :
    ∀ c ∈ (bytesToHex bytes).data, isLowerHexDigit c = true := by
  intro c hc
  have hc' : c ∈ bytes.flatMap (fun b => [hexDigitChar (b / 16), hexDigitChar (b % 16)]) := hc
  rcases List.mem_flatMap.mp hc' with ⟨b, hb, hcb⟩
  have h16a : b / 16 < 16 := by have := h b hb; omega
  have h16b : b % 16 < 16 := Nat.mod_lt _ (by omega)
  rcases List.mem_cons.mp hcb with rfl | hcb'
  · exact hexDigitChar_lower _ h16a
  · rcases List.mem_cons.mp hcb' with rfl | h0
    · exact hexDigitChar_lower _ h16b
    · cases h0

theorem flatMap_encodeUri_id (l : List Char) (h : ∀ c ∈ l, isUriUnreserved c = true) :
    l.flatMap encodeUriChar = l := by
  induction l with
  | nil => rfl
  | cons c t ih =>
    rw [List.flatMap_cons,
      show encodeUriChar c = [c] from by unfold encodeUriChar; rw [if_pos (h c (by simp))],
      ih (fun x hx => h x (List.mem_cons_of_mem _ hx))]
    rfl

/-- C7: every generated cancellation token is 64 characters long (two
lowercase hex digits per random byte, 32 bytes), uses only the lowercase
hex alphabet, and URL-query encoding leaves it unchanged. -/
theorem cancellation_token_hex64_url_safe (bytes : List Nat)
    (hlen : bytes.length = 32) (hb : ∀ b ∈ bytes, b < 256) :
    (generateCancellationToken bytes).length = 64 ∧
    (∀ c ∈ (generateCancellationToken bytes).data, isLowerHexDigit c = true) ∧
    encodeUriComponent (generateCancellationToken bytes)
      = generateCancellationToken bytes := by
  have hchars : ∀ c ∈ (generateCancellationToken bytes).data, isLowerHexDigit c = true :=
    bytesToHex_chars bytes hb
  refine ⟨?_, hchars, ?_⟩
  · show (bytes.flatMap (fun b => [hexDigitChar (b / 16), hexDigitChar (b % 16)])).length = 64
    rw [hexPair_length, hlen]
  · show String.mk ((generateCancellationToken bytes).data.flatMap encodeUriChar)
      = generateCancellationToken bytes
    rw [flatMap_encodeUri_id _ (fun c hc => uriUnreserved_of_hexDigit c (hchars c hc))]

/-- C7 witness: a concrete 32-byte input. -/
theorem cancellation_token_hex64_url_safe_witness :
    (List.range 32).length = 32 ∧ (∀ b ∈ List.range 32, b < 256) ∧
    (generateCancellationToken (List.range 32)).length = 64 := by
  refine ⟨by decide, by decide, ?_⟩
  obtain ⟨h64, -, -⟩ :=
    cancellation_token_hex64_url_safe (List.range 32) (by decide) (by decide)
  exact h64

set_option maxRecDepth 10000

theorem repr_length_le_three : ∀ n, n < 1000 → (Nat.repr n).length ≤ 3 := by
  decide

theorem repr_digits : ∀ n, n < 1000 → (Nat.repr n).data.all Char.isDigit = true := by
  decide

theorem padStart3_repr (r : Nat) (h : r < 1000) :
    (jsPadStart3 (Nat.repr r)).length = 3 ∧
    ∀ c ∈ (jsPadStart3 (Nat.repr r)).data, c.isDigit = true := by
  have hle : (Nat.repr r).length ≤ 3 := repr_length_le_three r h
  have hdig : ∀ c ∈ (Nat.repr r).data, c.isDigit = true := by
    intro c hc
    exact List.all_eq_true.mp (repr_digits r h) c hc
  unfold jsPadStart3
  split
  · rename_i h3
    have hdl : (Nat.repr r).length = (Nat.repr r).data.length := rfl
    exact ⟨by omega, hdig⟩
  · rename_i h3
    constructor
    · show (List.replicate (3 - (Nat.repr r).data.length) '0' ++ (Nat.repr r).data).length = 3
      rw [List.length_append, List.length_replicate]
      have : (Nat.repr r).data.length ≤ 3 := hle
      omega
    · intro c hc
      have hc' : c ∈ List.replicate (3 - (Nat.repr r).data.length) '0' ++ (Nat.repr r).data := hc
      rcases List.mem_append.mp hc' with hrep | hmem
      · rw [List.eq_of_mem_replicate hrep]
        rfl
      · exact hdig c hmem

/-- C8: the booking number is the fixed prefix "TB", then the last six
characters of the decimal epoch-millisecond timestamp (a suffix of its
decimal rendering, of length 6 whenever the timestamp has at least six
digits), then a 3-digit zero-padded random component; every successful
booking response carries exactly this generated number. -/
theorem booking_number_structure (now rand : Nat)
    (hnow : 6 ≤ (Nat.repr now).length) (hrand : rand < 1000) :
    generateBookingNumber now rand
      = "TB" ++ jsSliceLast6 (Nat.repr now) ++ jsPadStart3 (Nat.repr rand) ∧
    (jsSliceLast6 (Nat.repr now)).length = 6 ∧
    (jsSliceLast6 (Nat.repr now)).data <:+ (Nat.repr now).data ∧
    (jsPadStart3 (Nat.repr rand)).length = 3 ∧
    (∀ c ∈ (jsPadStart3 (Nat.repr rand)).data, c.isDigit = true) ∧
    (∀ (store : Store) (bd : JsonObj) (token ts : String) (fmt : String → String)
       (port emailUser : String),
      (bookRide store bd now rand token ts fmt port emailUser none).response.bookingNumber
        = some (generateBookingNumber now rand)) := by
  obtain ⟨hp3, hpd⟩ := padStart3_repr rand hrand
  refine ⟨rfl, ?_, ?_, hp3, hpd, fun _ _ _ _ _ _ _ => rfl⟩
  · show ((Nat.repr now).data.drop ((Nat.repr now).data.length - 6)).length = 6
    rw [List.length_drop]
    have : 6 ≤ (Nat.repr now).data.length := hnow
    omega
  · exact List.drop_suffix _ _

/-- C8 witness: a realistic 13-digit epoch timestamp and a small random
draw. -/
theorem booking_number_structure_witness :
    6 ≤ (Nat.repr 1700000000000).length ∧ (7 : Nat) < 1000 ∧
    (jsPadStart3 (Nat.repr 7)).length = 3 := by
  refine ⟨by decide, by decide, ?_⟩
  obtain ⟨-, -, -, h3, -⟩ :=
    booking_number_structure 1700000000000 7 (by decide) (by decide)
  exact h3

end TaxiServer
